import Mathlib

/-!
Shallow embedding of the pagerduty-rs client library (src/auth.rs,
src/request.rs, src/integration.rs) and proofs about its specification.

Modelling conventions:
* Rust `Cow<'a, str>` values are Lean `String`s (the borrow/own distinction
  is irrelevant to the observable behaviour).
* `serde_json::Value` is the inductive `Json` below; JSON numbers are
  modelled as integers (no claim depends on fractional numbers).
* Serialization derived by serde emits struct fields in declaration order,
  skipping a field when its `skip_serializing_if` predicate holds; the
  functions `TriggerEvent.toJson`, `SharedEvent.toJson` and `Context.toJson`
  reproduce that element by element.
* `serde_json::to_string` writes to an in-memory buffer; every single write
  is fallible in its type, which `Json.renderOpt` mirrors by returning
  `Option String` and combining sub-results monadically.
* `serde_json::from_str` is modelled by a fuel-indexed JSON text parser
  (`parseValue`) followed by field extraction.  The model covers the common
  string escapes; `\uXXXX` escapes and fractional/exponent number forms are
  outside the model's decode domain (all claims about `from_str` are stated
  relative to this embedded decoder).
* `hyper::status::StatusCode` is modelled by its numeric code (a `Nat`);
  `is_server_error` holds exactly on the 5xx class, as in hyper 0.8.
* `hyper::header::Headers` is modelled as an association list of
  header-name/value pairs.
-/

/-- Model of `serde_json::Value` (JSON trees). -/
inductive Json where
  | null
  | bool (b : Bool)
  | num (n : Int)
  | str (s : String)
  | arr (elems : List Json)
  | obj (fields : List (String × Json))

/-- Top-level keys of a JSON value: the field names when it is an object,
nothing otherwise. -/
def Json.topKeys : Json → List String
  | .obj fields => fields.map Prod.fst
  | _ => []

/-- Look a field up in a JSON object (first occurrence), `none` when the
value is not an object or the key is absent. -/
def Json.getField (j : Json) (key : String) : Option Json :=
  match j with
  | .obj fields => fields.lookup key
  | _ => none

/-- Helper for serde's skip_serializing_if Option::is_none fields: the
field is emitted exactly when the option is set. -/
def optField (name : String) : Option String → List (String × Json)
  | none => []
  | some s => [(name, Json.str s)]

/-- An informational asset attached to the incident
(struct `Context` in src/integration.rs, fields in declaration order). -/
structure Context where
  context_type : String
  src : Option String
  href : Option String
  alt : Option String
  text : Option String

/-- Constructor `Context::link` (src/integration.rs): note that the source
takes BOTH `href` and `text` as mandatory parameters and always stores
`Some(text)`. -/
def Context.link (href : String) (text : String) : Context :=
  { context_type := "link"
    href := some href
    text := some text
    alt := none
    src := none }

/-- Constructor `Context::image` (src/integration.rs). -/
def Context.image (src : String) (href : Option String) (alt : Option String) : Context :=
  { context_type := "image"
    src := some src
    href := href
    alt := alt
    text := none }

/-- Serde-derived serialization of `Context`: the `context_type` field is
renamed to "type"; the four optional fields are skipped when `None`,
emitted in declaration order otherwise. -/
def Context.toJson (c : Context) : Json :=
  Json.obj ([("type", Json.str c.context_type)]
    ++ optField "src" c.src
    ++ optField "href" c.href
    ++ optField "alt" c.alt
    ++ optField "text" c.text)

/-- Event to report a new or ongoing problem
(struct `TriggerEvent` in src/integration.rs, fields in declaration order). -/
structure TriggerEvent where
  service_key : String
  event_type : String
  description : String
  incident_key : Option String
  client : Option String
  client_url : Option String
  details : Option Json
  contexts : List Context

/-- Constructor `TriggerEvent::new`. -/
def TriggerEvent.new (service_key : String) (description : String) : TriggerEvent :=
  { service_key := service_key
    event_type := "trigger"
    description := description
    incident_key := none
    client := none
    client_url := none
    details := none
    contexts := [] }

/-- Setter `TriggerEvent::set_incident_key`. -/
def TriggerEvent.set_incident_key (e : TriggerEvent) (incident_key : String) : TriggerEvent :=
  { e with incident_key := some incident_key }

/-- Setter `TriggerEvent::set_client`. -/
def TriggerEvent.set_client (e : TriggerEvent) (client : String) : TriggerEvent :=
  { e with client := some client }

/-- Setter `TriggerEvent::set_client_url`. -/
def TriggerEvent.set_client_url (e : TriggerEvent) (client_url : String) : TriggerEvent :=
  { e with client_url := some client_url }

/-- Setter `TriggerEvent::set_details`: `to_value(details)` (infallible in
serde 0.x) pre-converts the caller's serializable value to a JSON tree, so
the model takes the resulting tree directly. -/
def TriggerEvent.set_details (e : TriggerEvent) (details : Json) : TriggerEvent :=
  { e with details := some details }

/-- Method `TriggerEvent::add_context`: pushes onto the contexts vector. -/
def TriggerEvent.add_context (e : TriggerEvent) (context : Context) : TriggerEvent :=
  { e with contexts := e.contexts ++ [context] }

/-- Serde-derived serialization of `TriggerEvent`: fields in declaration
order; the four options skipped when `None`; `contexts` skipped when the
vector is empty (`skip_serializing_if = "Vec::is_empty"`). -/
def TriggerEvent.toJson (e : TriggerEvent) : Json :=
  Json.obj ([("service_key", Json.str e.service_key),
             ("event_type", Json.str e.event_type),
             ("description", Json.str e.description)]
    ++ optField "incident_key" e.incident_key
    ++ optField "client" e.client
    ++ optField "client_url" e.client_url
    ++ (match e.details with
        | none => []
        | some d => [("details", d)])
    ++ (if e.contexts.isEmpty then []
        else [("contexts", Json.arr (e.contexts.map Context.toJson))]))

/-- The struct generated twice by the `shared_event_type!` macro in
src/integration.rs (once as `ResolveEvent`, once as `AcknowledgeEvent`;
both expansions are field-for-field identical, differing only in the
`event_type` constant installed by `new`).  Fields in declaration order. -/
structure SharedEvent where
  service_key : String
  event_type : String
  incident_key : String
  description : Option String
  details : Option Json

/-- Constructor `ResolveEvent::new` (macro expansion with
event_type => "resolve"). -/
def ResolveEvent.new (service_key : String) (incident_key : String) : SharedEvent :=
  { service_key := service_key
    event_type := "resolve"
    incident_key := incident_key
    description := none
    details := none }

/-- Constructor `AcknowledgeEvent::new` (macro expansion with
event_type => "acknowledge"). -/
def AcknowledgeEvent.new (service_key : String) (incident_key : String) : SharedEvent :=
  { service_key := service_key
    event_type := "acknowledge"
    incident_key := incident_key
    description := none
    details := none }

/-- Setter `set_description` from the `shared_event_type!` expansion. -/
def SharedEvent.set_description (e : SharedEvent) (description : String) : SharedEvent :=
  { e with description := some description }

/-- Setter `set_details` from the `shared_event_type!` expansion. -/
def SharedEvent.set_details (e : SharedEvent) (details : Json) : SharedEvent :=
  { e with details := some details }

/-- Serde-derived serialization of the shared resolve/acknowledge struct:
three mandatory fields in declaration order, then the two options, skipped
when `None`. -/
def SharedEvent.toJson (e : SharedEvent) : Json :=
  Json.obj ([("service_key", Json.str e.service_key),
             ("event_type", Json.str e.event_type),
             ("incident_key", Json.str e.incident_key)]
    ++ optField "description" e.description
    ++ (match e.details with
        | none => []
        | some d => [("details", d)]))

/-- Hex digit character for a value below 16 (serde_json writer helper). -/
def hexDigitChar (n : Nat) : Char :=
  if n < 10 then Char.ofNat (48 + n) else Char.ofNat (87 + n)

/-- Four-digit hexadecimal rendering used for JSON control-char escapes. -/
def hex4 (n : Nat) : String :=
  String.mk [hexDigitChar (n / 4096 % 16), hexDigitChar (n / 256 % 16),
             hexDigitChar (n / 16 % 16), hexDigitChar (n % 16)]

/-- JSON escape of one character, as the serde_json compact writer emits
it. -/
def escapeChar (c : Char) : String :=
  if c = '"' then "\\\""
  else if c = '\\' then "\\\\"
  else if c = '\n' then "\\n"
  else if c = '\t' then "\\t"
  else if c = '\r' then "\\r"
  else if c.toNat < 32 then "\\u" ++ hex4 c.toNat
  else String.singleton c

/-- JSON escape of a whole string. -/
def escapeString (s : String) : String :=
  s.data.foldl (fun acc c => acc ++ escapeChar c) ""

mutual

/-- Model of `serde_json::to_string`: every write into the output buffer is
fallible in its type (the writer returns a Result in the source), which the
`Option` mirrors; sub-results are combined monadically exactly as the
writer threads its Results. -/
def Json.renderOpt : Json → Option String
  | .null => some "null"
  | .bool b => some (if b then "true" else "false")
  | .num n => some (toString n)
  | .str s => some ("\"" ++ escapeString s ++ "\"")
  | .arr elems =>
    match Json.renderList elems with
    | some parts => some ("[" ++ String.intercalate "," parts ++ "]")
    | none => none
  | .obj fields =>
    match Json.renderFields fields with
    | some parts => some ("\x7b" ++ String.intercalate "," parts ++ "\x7d")
    | none => none

/-- Render each element of a JSON array, propagating any write failure. -/
def Json.renderList : List Json → Option (List String)
  | [] => some []
  | v :: rest =>
    match Json.renderOpt v, Json.renderList rest with
    | some s, some tailParts => some (s :: tailParts)
    | _, _ => none

/-- Render each key/value pair of a JSON object, propagating any write
failure. -/
def Json.renderFields : List (String × Json) → Option (List String)
  | [] => some []
  | (k, v) :: rest =>
    match Json.renderOpt v, Json.renderFields rest with
    | some s, some tailParts => some (("\"" ++ escapeString k ++ "\":" ++ s) :: tailParts)
    | _, _ => none

end

/-- Method `body` of `impl Requestable for TriggerEvent`
(src/integration.rs): `to_string(&self).unwrap()`.  The model keeps the
Result of `to_string` visible; `.unwrap()` is safe exactly when the result
is `some`. -/
def TriggerEvent.body (e : TriggerEvent) : Option String :=
  Json.renderOpt e.toJson

/-- Method `body` from the `shared_event_type!` expansion (ResolveEvent and
AcknowledgeEvent): `to_string(&self).unwrap()`. -/
def SharedEvent.body (e : SharedEvent) : Option String :=
  Json.renderOpt e.toJson

/-- JSON insignificant whitespace. -/
def isJsonWs (c : Char) : Bool :=
  c = ' ' || c = '\t' || c = '\n' || c = '\r'

/-- Drop leading JSON whitespace. -/
def skipWs : List Char → List Char
  | [] => []
  | c :: rest => if isJsonWs c then skipWs rest else c :: rest

/-- Resolve a single-character JSON string escape. -/
def unescapeChar (c : Char) : Option Char :=
  if c = '"' then some '"'
  else if c = '\\' then some '\\'
  else if c = '/' then some '/'
  else if c = 'n' then some '\n'
  else if c = 't' then some '\t'
  else if c = 'r' then some '\r'
  else if c = 'b' then some (Char.ofNat 8)
  else if c = 'f' then some (Char.ofNat 12)
  else none

/-- Parse the rest of a JSON string literal (the opening quote already
consumed), returning the decoded string and the unconsumed input. -/
def parseStringLit : List Char → Option (String × List Char)
  | [] => none
  | c :: rest =>
    if c = '"' then some ("", rest)
    else if c = '\\' then
      match rest with
      | [] => none
      | e :: rest2 =>
        match unescapeChar e with
        | none => none
        | some decoded =>
          match parseStringLit rest2 with
          | none => none
          | some (s, rem) => some (String.mk (decoded :: s.data), rem)
    else if c.toNat < 32 then none
    else
      match parseStringLit rest with
      | none => none
      | some (s, rem) => some (String.mk (c :: s.data), rem)

/-- Take a maximal run of decimal digits. -/
def takeDigits : List Char → (List Char × List Char)
  | [] => ([], [])
  | c :: rest =>
    if c.isDigit then
      let (ds, rem) := takeDigits rest
      (c :: ds, rem)
    else ([], c :: rest)

/-- Numeric value of a digit run. -/
def digitsToNat (ds : List Char) : Nat :=
  ds.foldl (fun acc c => acc * 10 + (c.toNat - 48)) 0

mutual

/-- Fuel-indexed model of serde_json's text parser: parse one JSON value,
returning it with the unconsumed input.  Running out of fuel reports a
parse failure; the top-level entry point supplies fuel ample for any input
it is called on. -/
def parseValue : Nat → List Char → Option (Json × List Char)
  | 0, _ => none
  | fuel + 1, input =>
    match skipWs input with
    | [] => none
    | c :: rest =>
      if c = '"' then
        match parseStringLit rest with
        | some (s, rem) => some (Json.str s, rem)
        | none => none
      else if c = '\x7b' then
        match skipWs rest with
        | '\x7d' :: rem => some (Json.obj [], rem)
        | afterBrace =>
          match parseObjFields fuel afterBrace with
          | some (fields, rem) => some (Json.obj fields, rem)
          | none => none
      else if c = '[' then
        match skipWs rest with
        | ']' :: rem => some (Json.arr [], rem)
        | afterBracket =>
          match parseArrElems fuel afterBracket with
          | some (elems, rem) => some (Json.arr elems, rem)
          | none => none
      else if c = 't' then
        match rest with
        | 'r' :: 'u' :: 'e' :: rem => some (Json.bool true, rem)
        | _ => none
      else if c = 'f' then
        match rest with
        | 'a' :: 'l' :: 's' :: 'e' :: rem => some (Json.bool false, rem)
        | _ => none
      else if c = 'n' then
        match rest with
        | 'u' :: 'l' :: 'l' :: rem => some (Json.null, rem)
        | _ => none
      else if c = '-' then
        match takeDigits rest with
        | ([], _) => none
        | (ds, rem) => some (Json.num (-(digitsToNat ds : Int)), rem)
      else if c.isDigit then
        match takeDigits (c :: rest) with
        | (ds, rem) => some (Json.num (digitsToNat ds), rem)
      else none

/-- Parse one or more comma-separated JSON array elements followed by the
closing bracket. -/
def parseArrElems : Nat → List Char → Option (List Json × List Char)
  | 0, _ => none
  | fuel + 1, input =>
    match parseValue fuel input with
    | none => none
    | some (v, rem) =>
      match skipWs rem with
      | ',' :: rest => 
        match parseArrElems fuel rest with
        | some (vs, rem2) => some (v :: vs, rem2)
        | none => none
      | ']' :: rest => some ([v], rest)
      | _ => none

/-- Parse one or more comma-separated JSON object members followed by the
closing brace. -/
def parseObjFields : Nat → List Char → Option (List (String × Json) × List Char)
  | 0, _ => none
  | fuel + 1, input =>
    match skipWs input with
    | '"' :: rest =>
      match parseStringLit rest with
      | none => none
      | some (k, rem) =>
        match skipWs rem with
        | ':' :: rest2 =>
          match parseValue fuel rest2 with
          | none => none
          | some (v, rem2) =>
            match skipWs rem2 with
            | ',' :: rest3 =>
              match parseObjFields fuel rest3 with
              | some (fields, rem3) => some ((k, v) :: fields, rem3)
              | none => none
            | '\x7d' :: rest3 => some ([(k, v)], rest3)
            | _ => none
        | _ => none
    | _ => none

end

/-- Parse a complete JSON document: one value with only whitespace after
it. -/
def parseJson (s : String) : Option Json :=
  match parseValue (2 * s.length + 2) s.data with
  | some (v, rem) => if (skipWs rem).isEmpty then some v else none
  | none => none

/-- Response record for HTTP 200 (`response::Success` in
src/integration.rs). -/
structure response.Success where
  status : String
  message : String
  incident_key : String
  deriving Repr, DecidableEq

/-- Response record for HTTP 400 (`response::BadRequest` in
src/integration.rs). -/
structure response.BadRequest where
  status : String
  message : String
  errors : List String
  deriving Repr, DecidableEq

/-- A Response from the integration API (enum `Response` in
src/integration.rs). -/
inductive Response where
  | Success (r : response.Success)
  | BadRequest (r : response.BadRequest)
  | Forbidden
  | InternalServerError
  deriving Repr, DecidableEq

/-- Deserialization failure from the modelled `serde_json::from_str`:
either the body is not well-formed JSON text, or the JSON does not carry
the expected record shape. -/
inductive DeError where
  | syntaxError
  | invalidData
  deriving Repr, DecidableEq

/-- Errors of making an HTTP request and processing the response (enum
`Error` in src/request.rs).  The hyper and io error payloads carried by
`Http` and `ReadResponse` are elided: no code under verification inspects
them. -/
inductive RequestError where
  | Http
  | Deserialize (e : DeError)
  | ReadResponse
  | UnexpectedApiResponse
  deriving Repr, DecidableEq

/-- Extract a string-typed field from decoded JSON object members. -/
def decodeStringField (fields : List (String × Json)) (key : String) : Option String :=
  match fields.lookup key with
  | some (Json.str s) => some s
  | _ => none

/-- Extract an array-of-strings-typed field from decoded JSON object
members. -/
def decodeStringListField (fields : List (String × Json)) (key : String) : Option (List String) :=
  match fields.lookup key with
  | some (Json.arr elems) =>
    elems.mapM (fun v =>
      match v with
      | Json.str s => some s
      | _ => none)
  | _ => none

/-- Model of `from_str::<response::Success>`: parse the body text, then
require an object with string fields "status", "message" and
"incident_key". -/
def from_str_success (body : String) : Except DeError response.Success :=
  match parseJson body with
  | none => Except.error DeError.syntaxError
  | some (Json.obj fields) =>
    match decodeStringField fields "status", decodeStringField fields "message",
          decodeStringField fields "incident_key" with
    | some a, some b, some c => Except.ok ⟨a, b, c⟩
    | _, _, _ => Except.error DeError.invalidData
  | some _ => Except.error DeError.invalidData

/-- Model of `from_str::<response::BadRequest>`: parse the body text, then
require an object with string fields "status" and "message" and a string
array "errors". -/
def from_str_bad_request (body : String) : Except DeError response.BadRequest :=
  match parseJson body with
  | none => Except.error DeError.syntaxError
  | some (Json.obj fields) =>
    match decodeStringField fields "status", decodeStringField fields "message",
          decodeStringListField fields "errors" with
    | some a, some b, some c => Except.ok ⟨a, b, c⟩
    | _, _, _ => Except.error DeError.invalidData
  | some _ => Except.error DeError.invalidData

/-- Model of `hyper::header::Headers`: header-name/value pairs. -/
def Headers : Type := List (String × String)

/-- Method `StatusCode::is_server_error` of hyper 0.8: the status class is
ServerError exactly for codes 500 through 599. -/
def StatusCode.is_server_error (status : Nat) : Bool :=
  500 ≤ status && status ≤ 599

/-- Function `Response::get_response` (src/integration.rs): match on the
status code; 200 and 400 decode the body (a decode failure converts to
`Error::Deserialize` through `try!` and the `From` impl), 403 and the
server-error class ignore the body, anything else is
`Error::UnexpectedApiResponse`.  The `_headers` argument is ignored, as in
the source. -/
def Response.get_response (status : Nat) (_headers : Headers) (body : String) :
    Except RequestError Response :=
  if status = 200 then
    match from_str_success body with
    | Except.ok r => Except.ok (Response.Success r)
    | Except.error e => Except.error (RequestError.Deserialize e)
  else if status = 400 then
    match from_str_bad_request body with
    | Except.ok r => Except.ok (Response.BadRequest r)
    | Except.error e => Except.error (RequestError.Deserialize e)
  else if status = 403 then
    Except.ok Response.Forbidden
  else if StatusCode.is_server_error status then
    Except.ok Response.InternalServerError
  else
    Except.error RequestError.UnexpectedApiResponse

/-- A token used to authorize requests (struct `AuthToken` in
src/auth.rs). -/
structure AuthToken where
  token : String

/-- Constructor `AuthToken::new`. -/
def AuthToken.new (raw_token : String) : AuthToken :=
  ⟨raw_token⟩

/-- Method `AuthToken::to_header` (src/auth.rs): builds
`hyper::header::Authorization(self.0.as_ref().to_owned())`.  hyper 0.8's
`Scheme` impl for a plain `String` has no scheme prefix and writes the
wrapped string unchanged, so the emitted header is the pair
("Authorization", token). -/
def AuthToken.to_header (a : AuthToken) : String × String :=
  ("Authorization", a.token)

/-- The header list assembled by `perform` (src/request.rs): the
requestable's own headers, then the authorization header from the
credential, a fixed user-agent and the JSON content type (each `set` call
appends; the three names are pairwise distinct and absent from the default
`Requestable::headers`, so appending models `Headers::set` faithfully
here). -/
def perform_headers (auth : AuthToken) (requestHeaders : List (String × String)) :
    List (String × String) :=
  requestHeaders ++ [auth.to_header,
    ("User-Agent", "hyper/0.8.0 pagerduty-rs/0.1.0"),
    ("Content-Type", "application/json")]

mutual

/-- Every JSON tree renders successfully: no write in the compact writer
can fail. -/
theorem Json.renderOpt_isSome : (j : Json) → (Json.renderOpt j).isSome = true
  | .null => rfl
  | .bool b => by cases b <;> rfl
  | .num _ => rfl
  | .str _ => rfl
  | .arr elems => by
    have h := Json.renderList_isSome elems
    rw [Json.renderOpt]
    cases hr : Json.renderList elems with
    | none => rw [hr] at h; exact absurd h (by simp)
    | some parts => simp
  | .obj fields => by
    have h := Json.renderFields_isSome fields
    rw [Json.renderOpt]
    cases hr : Json.renderFields fields with
    | none => rw [hr] at h; exact absurd h (by simp)
    | some parts => simp

/-- Every list of JSON array elements renders successfully. -/
theorem Json.renderList_isSome : (l : List Json) → (Json.renderList l).isSome = true
  | [] => rfl
  | v :: rest => by
    have h1 := Json.renderOpt_isSome v
    have h2 := Json.renderList_isSome rest
    rw [Json.renderList]
    cases hv : Json.renderOpt v with
    | none => rw [hv] at h1; exact absurd h1 (by simp)
    | some s =>
      cases hrest : Json.renderList rest with
      | none => rw [hrest] at h2; exact absurd h2 (by simp)
      | some parts => simp

/-- Every list of JSON object members renders successfully. -/
theorem Json.renderFields_isSome : (l : List (String × Json)) → (Json.renderFields l).isSome = true
  | [] => rfl
  | (k, v) :: rest => by
    have h1 := Json.renderOpt_isSome v
    have h2 := Json.renderFields_isSome rest
    rw [Json.renderFields]
    cases hv : Json.renderOpt v with
    | none => rw [hv] at h1; exact absurd h1 (by simp)
    | some s =>
      cases hrest : Json.renderFields rest with
      | none => rw [hrest] at h2; exact absurd h2 (by simp)
      | some parts => simp

end

/-- C10: body() is total on every constructed payload: for every
TriggerEvent, ResolveEvent, or AcknowledgeEvent, the serialization pass of
body() succeeds (returns some string), so the unwrap inside body() never
panics. -/
theorem body_never_panics :
    (∀ e : TriggerEvent, ∃ s, TriggerEvent.body e = some s) ∧
    (∀ e : SharedEvent, ∃ s, SharedEvent.body e = some s) := by
  constructor <;> intro e <;>
    exact Option.isSome_iff_exists.mp (Json.renderOpt_isSome _)

/-- C9: response classification does not depend on the response headers:
for every status, body, and any two header collections, get_response gives
the same result, so it is deterministic in (status, body). -/
theorem get_response_ignores_headers :
    ∀ (status : Nat) (h1 h2 : Headers) (body : String),
      Response.get_response status h1 body = Response.get_response status h2 body := by
  intro status h1 h2 body
  rfl

/-- C3 counterexample: the claim that the authorization header value is
"Token token=" followed by the credential fails at the concrete token
"abc": the emitted value is the raw token with no scheme prefix. -/
theorem to_header_no_scheme_prefix :
    ¬ ((AuthToken.new "abc").to_header).2 = "Token token=" ++ "abc" := by
  decide

/-- C3 (amended): for every credential token t, the authorization header
emitted by the credential wrapper is ("Authorization", t) — the raw token
with no scheme prefix — and the executor attaches exactly that header to
the request. -/
theorem to_header_raw_token :
    ∀ (t : String) (requestHeaders : List (String × String)),
      (AuthToken.new t).to_header = ("Authorization", t) ∧
      ("Authorization", t) ∈ perform_headers (AuthToken.new t) requestHeaders := by
  intro t requestHeaders
  refine ⟨rfl, ?_⟩
  simp [perform_headers, AuthToken.to_header, AuthToken.new]

/-- C5: the TriggerEvent built from service key "the service key" and
description "Houston, we have a problem" with no optional setters
serializes to a JSON object whose members are exactly the three required
fields, equal up to key order to the object given in the specification. -/
theorem trigger_event_minimal_serialization :
    (TriggerEvent.new "the service key" "Houston, we have a problem").toJson =
      Json.obj [("service_key", Json.str "the service key"),
                ("event_type", Json.str "trigger"),
                ("description", Json.str "Houston, we have a problem")] ∧
    [("service_key", Json.str "the service key"),
     ("event_type", Json.str "trigger"),
     ("description", Json.str "Houston, we have a problem")].Perm
      [("event_type", Json.str "trigger"),
       ("service_key", Json.str "the service key"),
       ("description", Json.str "Houston, we have a problem")] :=
  ⟨rfl, List.Perm.swap _ _ _⟩

/-- C6 (code divergence): every link attachment the API can construct
carries a text value, and its serialized object always contains the "text"
key — there is no way to build a link attachment from an href alone, in
contradiction with the optionality of text stated by the specification and
by the source's own doc comments. -/
theorem link_context_always_has_text :
    ∀ (href text : String),
      (Context.link href text).text = some text ∧
      "text" ∈ ((Context.link href text).toJson).topKeys := by
  intro href text
  exact ⟨rfl, by simp [Context.link, Context.toJson, Json.topKeys, optField]⟩

/-- C7: every Context is one of exactly two well-formed shapes: the image
constructor yields src set and text unset with href and alt exactly as
supplied, and the link constructor yields href set with src and alt unset;
accordingly an image never serializes a "text" key and a link never
serializes "src" or "alt" keys. -/
theorem context_two_shapes :
    (∀ (s : String) (href alt : Option String),
      (Context.image s href alt).src = some s ∧
      (Context.image s href alt).text = none ∧
      (Context.image s href alt).href = href ∧
      (Context.image s href alt).alt = alt ∧
      "text" ∉ ((Context.image s href alt).toJson).topKeys) ∧
    (∀ (h t : String),
      (Context.link h t).href = some h ∧
      (Context.link h t).src = none ∧
      (Context.link h t).alt = none ∧
      "src" ∉ ((Context.link h t).toJson).topKeys ∧
      "alt" ∉ ((Context.link h t).toJson).topKeys) := by
  constructor
  · intro s href alt
    refine ⟨rfl, rfl, rfl, rfl, ?_⟩
    cases href <;> cases alt <;>
      simp [Context.image, Context.toJson, Json.topKeys, optField]
  · intro h t
    refine ⟨rfl, rfl, rfl, ?_, ?_⟩ <;>
      simp [Context.link, Context.toJson, Json.topKeys, optField]

/-- C4: for every payload and every optional field left unset, the
serialized JSON object does not contain that field's key at all; a
TriggerEvent with an empty attachment list serializes with no contexts
key; and the required fields are always present. -/
theorem optional_keys_omitted :
    (∀ e : TriggerEvent,
      (e.incident_key = none → "incident_key" ∉ e.toJson.topKeys) ∧
      (e.client = none → "client" ∉ e.toJson.topKeys) ∧
      (e.client_url = none → "client_url" ∉ e.toJson.topKeys) ∧
      (e.details = none → "details" ∉ e.toJson.topKeys) ∧
      (e.contexts = [] → "contexts" ∉ e.toJson.topKeys) ∧
      "service_key" ∈ e.toJson.topKeys ∧
      "event_type" ∈ e.toJson.topKeys ∧
      "description" ∈ e.toJson.topKeys) ∧
    (∀ e : SharedEvent,
      (e.description = none → "description" ∉ e.toJson.topKeys) ∧
      (e.details = none → "details" ∉ e.toJson.topKeys) ∧
      "service_key" ∈ e.toJson.topKeys ∧
      "event_type" ∈ e.toJson.topKeys ∧
      "incident_key" ∈ e.toJson.topKeys) := by
  constructor
  · intro e
    refine ⟨?_, ?_, ?_, ?_, ?_, ?_, ?_, ?_⟩ <;>
    · try intro h
      cases hik : e.incident_key <;> cases hc : e.client <;> cases hcu : e.client_url <;>
        cases hd : e.details <;> cases hct : e.contexts <;>
          simp_all [TriggerEvent.toJson, Json.topKeys, optField]
  · intro e
    refine ⟨?_, ?_, ?_, ?_, ?_⟩ <;>
    · try intro h
      cases hds : e.description <;> cases hd : e.details <;>
        simp_all [SharedEvent.toJson, Json.topKeys, optField]

/-- C4 witness: the key-omission and required-key facts instantiated at a
freshly constructed trigger event and resolve event. -/
theorem optional_keys_omitted_witness :
    ("incident_key" ∉ ((TriggerEvent.new "k" "d").toJson).topKeys ∧
     "contexts" ∉ ((TriggerEvent.new "k" "d").toJson).topKeys ∧
     "service_key" ∈ ((TriggerEvent.new "k" "d").toJson).topKeys) ∧
    ("description" ∉ ((ResolveEvent.new "k" "i").toJson).topKeys ∧
     "incident_key" ∈ ((ResolveEvent.new "k" "i").toJson).topKeys) :=
  ⟨⟨(optional_keys_omitted.1 (TriggerEvent.new "k" "d")).1 rfl,
    (optional_keys_omitted.1 (TriggerEvent.new "k" "d")).2.2.2.2.1 rfl,
    (optional_keys_omitted.1 (TriggerEvent.new "k" "d")).2.2.2.2.2.1⟩,
   ⟨(optional_keys_omitted.2 (ResolveEvent.new "k" "i")).1 rfl,
    (optional_keys_omitted.2 (ResolveEvent.new "k" "i")).2.2.2.2⟩⟩

/-- C8: each add_context call appends the given attachment to the end of
the attachment list, a sequence of such calls appends in order, and the
serialized contexts array lists the attachments in exactly the order they
were added. -/
theorem add_context_preserves_order :
    (∀ (e : TriggerEvent) (c : Context),
      (e.add_context c).contexts = e.contexts ++ [c]) ∧
    (∀ (e : TriggerEvent) (cs : List Context),
      (cs.foldl TriggerEvent.add_context e).contexts = e.contexts ++ cs) ∧
    (∀ e : TriggerEvent, e.contexts ≠ [] →
      e.toJson.getField "contexts" = some (Json.arr (e.contexts.map Context.toJson))) := by
  refine ⟨fun e c => rfl, ?_, ?_⟩
  · intro e cs
    induction cs generalizing e with
    | nil => simp
    | cons c rest ih =>
      simp [List.foldl, ih, TriggerEvent.add_context]
  · intro e h
    cases hct : e.contexts with
    | nil => exact absurd hct h
    | cons c rest =>
      cases hik : e.incident_key <;> cases hc : e.client <;> cases hcu : e.client_url <;>
        cases hd : e.details <;>
          simp [TriggerEvent.toJson, Json.getField, optField, hik, hc, hcu, hd, hct,
                List.lookup]

/-- C8 witness: the ordered-serialization fact instantiated at a trigger
event holding one image attachment followed by one link attachment. -/
theorem add_context_preserves_order_witness :
    (((TriggerEvent.new "k" "d").add_context
        (Context.image "https://img.example" none none)).add_context
        (Context.link "https://www.example.com" "a link")).toJson.getField "contexts" =
      some (Json.arr ((((TriggerEvent.new "k" "d").add_context
        (Context.image "https://img.example" none none)).add_context
        (Context.link "https://www.example.com" "a link")).contexts.map Context.toJson)) :=
  add_context_preserves_order.2.2 _ (by simp [TriggerEvent.new, TriggerEvent.add_context])

/-- C1: get_response classifies by status code: 200 with a body decoding
as the Success record yields Response.Success of that record; 400 with a
body decoding as the BadRequest record yields Response.BadRequest of that
record; 403 yields Response.Forbidden with the body ignored; any status in
the 5xx server-error class yields Response.InternalServerError with the
body ignored. -/
theorem get_response_classification :
    ∀ (status : Nat) (headers : Headers) (body : String),
      (status = 200 → ∀ r, from_str_success body = Except.ok r →
        Response.get_response status headers body = Except.ok (Response.Success r)) ∧
      (status = 400 → ∀ r, from_str_bad_request body = Except.ok r →
        Response.get_response status headers body = Except.ok (Response.BadRequest r)) ∧
      (status = 403 →
        Response.get_response status headers body = Except.ok Response.Forbidden) ∧
      (StatusCode.is_server_error status = true →
        Response.get_response status headers body = Except.ok Response.InternalServerError) := by
  intro status headers body
  refine ⟨?_, ?_, ?_, ?_⟩
  · rintro rfl r hr
    simp [Response.get_response, hr]
  · rintro rfl r hr
    simp [Response.get_response, hr]
  · rintro rfl
    simp [Response.get_response]
  · intro h
    have h5 : 500 ≤ status ∧ status ≤ 599 := by
      simpa [StatusCode.is_server_error] using h
    rw [Response.get_response, if_neg (by omega), if_neg (by omega), if_neg (by omega),
        if_pos h]

/-- C1 witness: the four classification branches at the documented literal
status/body pairs. -/
theorem get_response_classification_witness :
    Response.get_response 200 []
      "\x7b\"status\":\"success\",\"message\":\"Event processed\",\"incident_key\":\"KEY123\"\x7d"
      = Except.ok (Response.Success ⟨"success", "Event processed", "KEY123"⟩) ∧
    Response.get_response 400 []
      "\x7b\"status\":\"invalid event\",\"message\":\"Event object is invalid\",\"errors\":[\"service_key is missing\"]\x7d"
      = Except.ok (Response.BadRequest ⟨"invalid event", "Event object is invalid",
          ["service_key is missing"]⟩) ∧
    Response.get_response 403 [] "" = Except.ok Response.Forbidden ∧
    Response.get_response 500 [] "" = Except.ok Response.InternalServerError :=
  ⟨(get_response_classification 200 [] _).1 rfl _ rfl,
   (get_response_classification 400 [] _).2.1 rfl _ rfl,
   (get_response_classification 403 [] "").2.2.1 rfl,
   (get_response_classification 500 [] "").2.2.2 rfl⟩

/-- C2: get_response errs exactly in these cases and no others: every
status outside 200, 400, 403 and the 5xx class fails with
UnexpectedApiResponse, status 200 or 400 with a body that does not decode
fails with a Deserialize error, and every returned error is of one of
those forms. -/
theorem get_response_error_cases :
    ∀ (status : Nat) (headers : Headers) (body : String),
      (status ≠ 200 → status ≠ 400 → status ≠ 403 →
        StatusCode.is_server_error status = false →
        Response.get_response status headers body =
          Except.error RequestError.UnexpectedApiResponse) ∧
      (status = 200 → ∀ e, from_str_success body = Except.error e →
        Response.get_response status headers body =
          Except.error (RequestError.Deserialize e)) ∧
      (status = 400 → ∀ e, from_str_bad_request body = Except.error e →
        Response.get_response status headers body =
          Except.error (RequestError.Deserialize e)) ∧
      (∀ err, Response.get_response status headers body = Except.error err →
        (status ≠ 200 ∧ status ≠ 400 ∧ status ≠ 403 ∧
          StatusCode.is_server_error status = false ∧
          err = RequestError.UnexpectedApiResponse) ∨
        (status = 200 ∧ ∃ e, from_str_success body = Except.error e ∧
          err = RequestError.Deserialize e) ∨
        (status = 400 ∧ ∃ e, from_str_bad_request body = Except.error e ∧
          err = RequestError.Deserialize e)) := by
  intro status headers body
  refine ⟨?_, ?_, ?_, ?_⟩
  · intro h200 h400 h403 h5xx
    simp [Response.get_response, h200, h400, h403, h5xx]
  · rintro rfl e he
    simp [Response.get_response, he]
  · rintro rfl e he
    simp [Response.get_response, he]
  · intro err herr
    by_cases h200 : status = 200
    · subst h200
      refine Or.inr (Or.inl ⟨rfl, ?_⟩)
      cases hf : from_str_success body with
      | ok r => rw [Response.get_response] at herr; simp [hf] at herr
      | error e =>
        rw [Response.get_response] at herr
        simp only [if_pos rfl, hf] at herr
        exact ⟨e, rfl, by injection herr.symm⟩
    · by_cases h400 : status = 400
      · subst h400
        refine Or.inr (Or.inr ⟨rfl, ?_⟩)
        cases hf : from_str_bad_request body with
        | ok r =>
          rw [Response.get_response] at herr
          simp [hf] at herr
        | error e =>
          rw [Response.get_response] at herr
          simp only [if_neg (by omega : ¬ (400 : Nat) = 200), if_pos rfl, hf] at herr
          exact ⟨e, rfl, by injection herr.symm⟩
      · by_cases h403 : status = 403
        · subst h403
          rw [Response.get_response] at herr
          simp at herr
        · by_cases h5xx : StatusCode.is_server_error status = true
          · rw [Response.get_response, if_neg h200, if_neg h400, if_neg h403,
               if_pos h5xx] at herr
            exact absurd herr (by simp)
          · refine Or.inl ⟨h200, h400, h403, by simpa using h5xx, ?_⟩
            rw [Response.get_response, if_neg h200, if_neg h400, if_neg h403,
               if_neg h5xx] at herr
            injection herr.symm

/-- C2 witness: the error branches at status 418 (unexpected status), at
status 200 with a body that is not JSON, and at status 400 with a JSON
body missing the required fields. -/
theorem get_response_error_cases_witness :
    Response.get_response 418 [] "teapot" =
      Except.error RequestError.UnexpectedApiResponse ∧
    Response.get_response 200 [] "not json" =
      Except.error (RequestError.Deserialize DeError.syntaxError) ∧
    Response.get_response 400 [] "\x7b\"status\":\"x\"\x7d" =
      Except.error (RequestError.Deserialize DeError.invalidData) :=
  ⟨(get_response_error_cases 418 [] "teapot").1 (by decide) (by decide) (by decide) rfl,
   (get_response_error_cases 200 [] "not json").2.1 rfl DeError.syntaxError rfl,
   (get_response_error_cases 400 [] _).2.2.1 rfl DeError.invalidData rfl⟩
